import Mathlib

/-!
Verification of the ecommerce-agent repository's configuration, prompt-templating
and dispatch logic: a shallow embedding of the pure parts of
`web_cart_agent.py`, `ecommerce_cart_agent.py`, `ecommerce_cart_agent_advanced.py`
and `web_cart_ui.py`, with theorems settling the spec's claims about them.
Python strings are modelled as Lean `String`, dictionaries with a fixed key set
as structures with `Option` fields (a present key is `some`), fallible calls as
`Except String`, and the process environment / filesystem as explicit function
parameters.
-/

namespace CartAgent

/-! ## Python string primitives -/

/-- The characters Python's `str.strip()` removes (ASCII whitespace). -/
def pyIsSpaceChar (c : Char) : Bool :=
  c = ' ' || c = '\t' || c = '\n' || c = '\r' || c = '\x0b' || c = '\x0c'

/-- Python `str.strip()`: drop whitespace from both ends. -/
def pyStrip (s : String) : String :=
  ⟨((s.data.dropWhile pyIsSpaceChar).reverse.dropWhile pyIsSpaceChar).reverse⟩

/-- Substring search on character lists: `needle` occurs as a contiguous run. -/
def listContains (needle : List Char) : List Char → Bool
  | [] => needle.isEmpty
  | c :: rest => needle.isPrefixOf (c :: rest) || listContains needle rest

/-- Python `needle in haystack` on strings: substring containment. -/
def pyInStr (needle haystack : String) : Bool :=
  listContains needle.data haystack.data

/-- Python `s.lower()` (ASCII range, the only one the sources use). -/
def pyLower (s : String) : String := ⟨s.data.map Char.toLower⟩

/-- Python `s.upper()` (ASCII range, the only one the sources use). -/
def pyUpper (s : String) : String := ⟨s.data.map Char.toUpper⟩

/-- Python `s.startswith(t)`. -/
def pyStartsWith (s t : String) : Bool := t.data.isPrefixOf s.data

/-- Python `s.endswith(t)`. -/
def pyEndsWith (s t : String) : Bool := t.data.reverse.isPrefixOf s.data.reverse

/-- Splitting on a nonempty separator, Python style: scan left to right,
emitting the piece accumulated (in reverse) at each separator occurrence.
Structural recursion on `fuel`, called with `fuel = l.length`; one scanned
character consumes at least one fuel, so the `0, c :: rest` branch is dead. -/
def pySplitAux (sep : List Char) : Nat → List Char → List Char → List (List Char)
  | _, acc, [] => [acc.reverse]
  | 0, acc, l => [acc.reverse ++ l]
  | fuel + 1, acc, c :: rest =>
      if sep.isPrefixOf (c :: rest) then
        acc.reverse :: pySplitAux sep fuel [] (rest.drop (sep.length - 1))
      else pySplitAux sep fuel (c :: acc) rest

/-- Python `s.split(sep)` for a nonempty separator (an empty one raises in
Python and does not occur in the sources). -/
def pySplit (s sep : String) : List String :=
  match sep.data with
  | [] => [s]
  | _ :: _ => (pySplitAux sep.data s.data.length [] s.data).map (fun l => ⟨l⟩)

/-- Value of an ASCII digit. -/
def pyDigitVal (c : Char) : Nat := c.toNat - 48

/-- Digits of a decimal literal after its first digit, allowing single
underscores between digits as Python's `int` does. -/
def pyDigitsCore (acc : Nat) : List Char → Option Nat
  | [] => some acc
  | '_' :: c :: rest =>
      if c.isDigit then pyDigitsCore (acc * 10 + pyDigitVal c) rest else none
  | c :: rest =>
      if c.isDigit then pyDigitsCore (acc * 10 + pyDigitVal c) rest else none

/-- A nonempty run of decimal digits (single underscores allowed between
digits), as Python's `int` reads the part after the sign. -/
def pyDigits : List Char → Option Nat
  | [] => none
  | c :: rest => if c.isDigit then pyDigitsCore (pyDigitVal c) rest else none

/-- Python `int(s)` for a decimal string: surrounding whitespace and one
optional sign are accepted; `none` models the `ValueError` raised otherwise. -/
def pyIntOfString (s : String) : Option Int :=
  match (pyStrip s).data with
  | '+' :: rest => (pyDigits rest).map Int.ofNat
  | '-' :: rest => (pyDigits rest).map (fun n => -(n : Int))
  | rest => (pyDigits rest).map Int.ofNat

/-- Python `str(b)` for a `bool`. -/
def pyStrBool (b : Bool) : String := if b then "True" else "False"

/-- Core of Python `str.replace`: replace non-overlapping occurrences of
`old` left to right (for nonempty `old`). Structural recursion on `fuel`,
called with `fuel = l.length`; one scanned character consumes at least one
fuel, so the `0, c :: rest` branch is dead. -/
def pyReplaceCore (old new : List Char) : Nat → List Char → List Char
  | _, [] => []
  | 0, l => l
  | fuel + 1, c :: rest =>
      if old.isPrefixOf (c :: rest) then
        new ++ pyReplaceCore old new fuel (rest.drop (old.length - 1))
      else
        c :: pyReplaceCore old new fuel rest

/-- Python `s.replace(old, new)`; an empty `old` inserts `new` before every
character and at the end, as Python does. -/
def pyReplace (s old new : String) : String :=
  match old.data with
  | [] => ⟨new.data ++ s.data.flatMap (fun c => c :: new.data)⟩
  | _ :: _ => ⟨pyReplaceCore old.data new.data s.data.length s.data⟩

/-- `os.path.basename` for POSIX paths: everything after the last slash. -/
def pyBasename (p : String) : String :=
  ⟨(p.data.reverse.takeWhile (fun c => c ≠ '/')).reverse⟩

/-- `os.path.join(a, b)` for POSIX paths with one non-absolute second part. -/
def pyOsPathJoin (a b : String) : String :=
  if pyStartsWith b "/" then b
  else if a = "" || pyEndsWith a "/" then a ++ b
  else a ++ "/" ++ b

/-- Python `s.split(sep, 1)` for a single-character separator, as the pair
(before the first occurrence, the remainder). With no occurrence the second
component is empty and the first is `s`. -/
def pySplitOnceColon (s : String) : String × String :=
  let ps := pySplit s ":"
  (ps.headD "", String.intercalate ":" ps.tail)

/-- Python `dict[k] = v` on an association list: update the value in place
when the key is present, append otherwise (insertion order preserved). -/
def dictInsert (l : List (String × String)) (k v : String) : List (String × String) :=
  if l.any (fun kv => kv.1 = k) then
    l.map (fun kv => if kv.1 = k then (k, v) else kv)
  else
    l ++ [(k, v)]

/-! ## Data model -/

/-- An item dictionary as the web agent consumes it: JSON/UI items carry a
`name` and optional `description`, `quantity` and `options` keys. A `some`
field is a present key. -/
structure Item where
  name : Option String
  description : Option String
  quantity : Option Int
  options : Option (List (String × String))
deriving Repr, DecidableEq

/-- A credentials dictionary restricted to its two meaningful keys. A `some`
field is a present key; both fields `none` is the empty dict. -/
structure Creds where
  username : Option String
  password : Option String
deriving Repr, DecidableEq

/-- Python truthiness of a credentials dict: empty iff no key is present. -/
def credsEmpty (c : Creds) : Bool := c.username.isNone && c.password.isNone

/-- The placeholder `_get_credentials` substitutes for a missing entry. -/
def askUser : String := "<<ASK_USER>>"


/-! ## web_cart_agent.py: task-prompt construction (`_create_task`) -/

/-- The JavaScript login-status check `js_confirm_code` interpolated into the base task
(src/web_cart_agent.py lines 156-180). -/
def jsConfirmCode : String := "
browser.evaluate_and_return(js_code=`
  // Check login status without showing a prompt
  // Look for common login indicators
  const accountElements = document.querySelectorAll('a[href*=account], span[class*=account], div[class*=account], a[class*=account], *[aria-label*=account], *[id*=account]');
  const cartElements = document.querySelectorAll('a[href*=cart], span[class*=cart], div[class*=cart], *[aria-label*=cart], *[id*=cart]');
  const userNameElements = document.querySelectorAll('*:not(meta):not(script):not(style):not(path):not(input):not(button):not(a)[class*=user], *:not(meta):not(script):not(style):not(path):not(input):not(button):not(a)[id*=user]');
  const signOutElements = document.querySelectorAll('a[href*=logout], a[href*=signout], *[class*=logout], *[class*=signout], *[id*=logout], *[id*=signout], a:contains(\"Sign Out\"), a:contains(\"Log Out\")');
  
  // Get text content of potential account elements to check for logged-in state
  const accountText = Array.from(accountElements).map(el => el.textContent.trim()).join('|');
  const userText = Array.from(userNameElements).map(el => el.textContent.trim()).join('|');
  
  // Return the findings as an object
  return \x7b
    hasAccountElements: accountElements.length > 0,
    hasCartElements: cartElements.length > 0,
    hasUserNameElements: userNameElements.length > 0,
    hasSignOutElements: signOutElements.length > 0,
    accountText,
    userText,
    isLikelyLoggedIn: accountElements.length > 0 || signOutElements.length > 0 || userNameElements.length > 0
  \x7d;
`)
"

/-- The `universal_login_instructions` block (src/web_cart_agent.py lines 183-195). -/
def universalLoginInstructions : String := "
        CRITICAL INSTRUCTIONS FOR ALL LOGIN PROCESSES:
        - When on ANY login page, DO ABSOLUTELY NOTHING. Do not show alerts or prompts.
        - FREEZE completely and DO NOT interact with the page in any way.
        - DO NOT click any elements, DO NOT refresh the page, DO NOT navigate away.
        - DO NOT SEARCH GOOGLE for any login instructions or text. 
        - WAIT in absolute stillness while the user inputs their credentials.
        - SILENTLY check login status in the background every 10 seconds.
        - DO NOT display any prompts asking if the user has completed login.
        - DO NOT interrupt the user's login process with any messages.
        - After detecting successful login status, verify the login by checking for user account icons/name.
        - Only after detecting login success through silent status checks, proceed with searching for items.
        "

/-- The static site-specific instruction block for amazon in the `site_instructions`
dictionary of `_create_task` (src/web_cart_agent.py). -/
def amazonInstructions : String := "
            - For Amazon, use the search bar at the top of the page.
            - Be aware of sponsored results vs. regular results.
            - If there are \"Buy Now\" vs \"Add to Cart\" buttons, use \"Add to Cart\".
            - If prompted about protection plans or additional offerings, decline them.
            - Check for the cart confirmation message or icon update at the top right.
            - For quantity changes, use the dropdown or quantity selector before adding to cart.
            - For login verification, check for the presence of \"Hello, [Name]\" in the top right or \"Account & Lists\" dropdown.
            - Amazon typically uses a multi-step login process (email first, then password). Make sure all steps are completed.
            - CRITICAL: When on the login page, DO NOT click any buttons or refresh the page until the user completes login.
            - If OTP verification is required, wait until the user inputs the verification code.
            "

/-- The static site-specific instruction block for walmart in the `site_instructions`
dictionary of `_create_task` (src/web_cart_agent.py). -/
def walmartInstructions : String := "
            - For Walmart, use the search bar at the top of the page.
            - Pay attention to the \"Sold and shipped by\" information to ensure you're getting items from Walmart directly if possible.
            - If prompted about protection plans or warranties, decline them.
            - If asked about pickup vs delivery, skip this step as we're only adding to cart.
            - For quantity, use the \"+\" button to increase or directly update the quantity field.
            - For login verification, check for the presence of account name or \"Account\" indicator that shows the user is logged in.
            - CRITICAL: When on the login page, DO NOT click any buttons or refresh the page until the user completes login.
            "

/-- The static site-specific instruction block for target in the `site_instructions`
dictionary of `_create_task` (src/web_cart_agent.py). -/
def targetInstructions : String := "
            - For Target, use the search bar at the top of the page.
            - Pay attention to \"Sold and shipped by\" to prioritize items sold directly by Target.
            - If prompted about protection plans or warranties, decline them.
            - For quantity, use the quantity selector before adding to cart.
            - For login verification, check for \"Hi, [Name]\" or the account icon in the top right.
            - CRITICAL: When on the login page, DO NOT click any buttons or refresh the page until the user completes login.
            "

/-- The static site-specific instruction block for bestbuy in the `site_instructions`
dictionary of `_create_task` (src/web_cart_agent.py). -/
def bestbuyInstructions : String := "
            - For Best Buy, use the search bar at the top of the page.
            - If prompted about protection plans or memberships, decline them.
            - If asked about store pickup vs shipping, skip this step.
            - For quantity, update the quantity selector before adding to cart.
            - For login verification, check for the account name or \"Account\" indicator in the top right.
            - CRITICAL: When on the login page, DO NOT click any buttons or refresh the page until the user completes login.
            "

/-- The static site-specific instruction block for ebay in the `site_instructions`
dictionary of `_create_task` (src/web_cart_agent.py). -/
def ebayInstructions : String := "
            - For eBay, use the search bar at the top of the page.
            - Filter for \"Buy It Now\" items to avoid auctions, unless instructed otherwise.
            - For item variations (size, color, etc.), select them from the dropdown menus before adding to cart.
            - For quantity, update the quantity field before clicking \"Add to cart\".
            - For login verification, check for the username or a \"My eBay\" dropdown in the top right.
            - CRITICAL: When on the login page, DO NOT click any buttons or refresh the page until the user completes login.
            "

/-- The static site-specific instruction block for newegg in the `site_instructions`
dictionary of `_create_task` (src/web_cart_agent.py). -/
def neweggInstructions : String := "
            - For Newegg, use the search bar at the top of the page.
            - Pay attention to \"Sold and shipped by\" information to prioritize items sold by Newegg.
            - If there are combo deals or add-ons suggested, you can skip those.
            - Be aware of the \"Auto-Add\" features - deselect anything the user didn't specify.
            - For login verification, check for \"Hi, [Name]\" or account indicators in the top right.
            - CRITICAL: When on the login page, DO NOT click any buttons or refresh the page until the user completes login.
            "

/-- The static site-specific instruction block for flipkart in the `site_instructions`
dictionary of `_create_task` (src/web_cart_agent.py). -/
def flipkartInstructions : String := "
            - For Flipkart, use the search bar at the top of the page.
            - Pay attention to seller ratings when selecting products.
            - Be aware of \"Flipkart Assured\" products which are more reliable.
            - For login verification, check for the account name or icon in the top right.
            - CRITICAL: When on the login page, DO NOT click any buttons or refresh the page until the user completes login.
            - Flipkart login often involves OTP verification via phone - wait patiently without any interaction.
            - If a login popup appears, DO NOT close it or click anywhere else on the page.
            - Let the user handle all steps of the login process without any interference.
            - Wait for the user to confirm they've completed login before proceeding.
            - For quantity, use the quantity selector before adding to cart.
            - Look for \"ADD TO CART\" button typically in orange or yellow.
            - Avoid \"BUY NOW\" button as we're only adding to cart.
            "

/-- The generic fallback instruction block of `_create_task` (src/web_cart_agent.py
lines 363-373). -/
def genericSiteInstructions : String := "
            - Use the search bar at the top of the page to find each item.
            - Try different search terms if you can't find an exact match for an item.
            - For quantity changes, update the quantity field before adding to cart.
            - If prompted about additional options or warranties, decline them.
            - If there are product variations (size, color, etc.), select them before adding to cart.
            - For login verification, look for account name, user-specific elements, or welcome messages.
            - CRITICAL: When on the login page, DO NOT click any buttons or refresh the page until the user completes login.
            - If login involves OTP verification or captcha, wait patiently without any interaction.
            - Let the user handle all steps of the login process without any interference.
            "

/-- The `site_instructions` dictionary of `_create_task`: site name to static
instruction block, in source order. -/
def siteInstructionsTable : List (String × String) :=
  [("amazon", amazonInstructions), ("walmart", walmartInstructions), ("target", targetInstructions), ("bestbuy", bestbuyInstructions), ("ebay", ebayInstructions), ("newegg", neweggInstructions), ("flipkart", flipkartInstructions)]

/-- The `base_task` f-string of `_create_task` (src/web_cart_agent.py lines 223-279),
as a function of the interpolated values. -/
def baseTask (website itemsFormatted username password : String) : String :=
  "
        # Web Cart Agent Task
        
        ## Objective
        Your task is to navigate to "
  ++ website
  ++ ", log in to the user's account if required,
        search for the following items, and add them to the cart.
        
        ## Items to Add to Cart
        "
  ++ itemsFormatted
  ++ "
        
        ## Login Information (if required)
        Username/Email: "
  ++ username
  ++ "
        Password: "
  ++ password
  ++ "
        
        "
  ++ universalLoginInstructions
  ++ "

        ## Steps to Follow:
        1. Navigate to "
  ++ website
  ++ ".
        2. If login is required:
           a. Navigate to the login page (look for \"Sign In\" or \"Login\" links).
           b. IMPORTANT: After reaching the login page, STOP ALL ACTIONS completely. DO NOT show any alerts or prompts.
           c. WAIT COMPLETELY STILL while the user completes their login manually. DO NOT click anything, refresh, or navigate.
           d. Many websites have multi-step login flows (email → password → OTP). The user needs to complete ALL steps.
           e. Silently check login status in the background every 10 seconds using:
              ```javascript
"
  ++ jsConfirmCode
  ++ "
              ```
           f. When login status check indicates login success (isLikelyLoggedIn is true), proceed to the next step.
           g. DO NOT use the \"done\" or \"thought\" actions during this process. You must actively wait for the user.
           h. DO NOT search Google, use the search box, or navigate away while waiting for login.
           i. YOU MUST NOT INTERACT WITH THE PAGE AT ALL during login - no clicks, no typing, no refreshing.
           j. DO NOT show any popup messages or alerts during the login process.
        
        3. For each item:
           a. Use the search function on the website to search for the item by name.
           b. From the search results, find the most relevant match for the item.
           c. If there are multiple options, try to find the one that best matches the description.
           d. If needed, set quantity and select any specified options before adding to cart.
           e. Click \"Add to Cart\" or similar button.
           f. Verify the item was successfully added to the cart before proceeding to the next item.
        
        4. After adding all items, navigate to the cart page to confirm all items are in the cart.
        
        5. Do NOT proceed to checkout.
        
        ## Important Notes
        - NEVER end the task with \"done\" action until all items are added to cart.
        - NEVER search Google for login instructions or waiting messages.
        - During login, you MUST REMAIN COMPLETELY STILL on the login page.
        - DO NOT display any alerts or prompts during the login process.
        - Silently check login status in the background periodically.
        - Be patient during multi-step login flows (username → password → OTP/2FA).
        - Look for the presence of account name, user-specific elements, or cart access as indicators of successful login.
        - Clear search results before searching for items.
        
        ## Website-Specific Instructions
        "

/-- The `site_name` lookup key of `_create_task` and `_get_credentials`: the
first dot-separated component of the website, lowercased
(`self.website.split('.')[0].lower()`). -/
def siteNameOf (website : String) : String :=
  pyLower ((pySplit website ".").headD "")

/-- The site-specific block `_create_task` appends: the `site_instructions`
entry for the site name when one exists, the generic block otherwise. -/
def siteSpecificFor (website : String) : String :=
  match siteInstructionsTable.lookup (siteNameOf website) with
  | some s => s
  | none => genericSiteInstructions

/-- One iteration of the `items_formatted` loop of `_create_task`
(src/web_cart_agent.py lines 133-148), for the 1-based index `i`. -/
def formatOneItem (i : Nat) (item : Item) : String :=
  let name := item.name.getD ""
  let description := item.description.getD ""
  let quantity := item.quantity.getD 1
  let options := item.options.getD []
  "Item " ++ toString i ++ ": " ++ name ++ "\n"
    ++ (if description ≠ "" then "  Description: " ++ description ++ "\n" else "")
    ++ "  Quantity: " ++ toString quantity ++ "\n"
    ++ (if options ≠ [] then
          "  Options:\n"
            ++ String.join (options.map (fun kv => "    - " ++ kv.1 ++ ": " ++ kv.2 ++ "\n"))
        else "")
    ++ "\n"

/-- The `items_formatted` accumulator of `_create_task`: items enumerated
from 1. -/
def itemsFormatted (items : List Item) : String :=
  String.join ((List.enumFrom 1 items).map (fun p => formatOneItem p.1 p.2))

/-- `WebCartAgent._create_task`: the full task prompt, a function of the
website, the item list and the credentials dict (the only state it reads). -/
def createTask (website : String) (items : List Item) (credentials : Creds) : String :=
  let username := credentials.username.getD askUser
  let password := credentials.password.getD askUser
  baseTask website (itemsFormatted items) username password ++ siteSpecificFor website

/-- The fields of a `WebCartAgent` that `__init__` stores before building the
task (the browser handle and agent object live outside this embedding). -/
structure WebCartAgentState where
  website : String
  items : List Item
  credentials : Creds
  headless : Bool
  browserInstancePath : Option String
deriving Repr

/-- `self._create_task()`: the prompt the stored state yields. -/
def taskOfState (s : WebCartAgentState) : String :=
  createTask s.website s.items s.credentials

/-! ## web_cart_agent.py: `_get_credentials` -/

/-- The per-site environment-variable stem `_get_credentials` builds:
`self.website.split('.')[0].upper()`. -/
def webSiteKey (website : String) : String :=
  pyUpper ((pySplit website ".").headD "")

/-- `WebCartAgent._get_credentials` (src/web_cart_agent.py lines 100-124):
`provided_credentials or {}`, the per-site environment fallback when the dict
is empty (an empty-string variable is falsy and skipped), then `<<ASK_USER>>`
for entries still missing. -/
def webGetCredentials (provided : Option Creds) (env : String → Option String)
    (website : String) : Creds :=
  let credentials := provided.getD ⟨none, none⟩
  let credentials :=
    if credsEmpty credentials then
      let siteUpper := webSiteKey website
      let credentials :=
        match env (siteUpper ++ "_USERNAME") with
        | some u => if u = "" then credentials else { credentials with username := some u }
        | none => credentials
      match env (siteUpper ++ "_PASSWORD") with
      | some p => if p = "" then credentials else { credentials with password := some p }
      | none => credentials
    else credentials
  let credentials :=
    if credentials.username = none then { credentials with username := some askUser }
    else credentials
  if credentials.password = none then { credentials with password := some askUser }
  else credentials

/-! ## web_cart_agent.py: `_resolve_app_path` -/

/-- The executable name `_resolve_app_path` picks: a hard-coded name for the
first matching browser of the `if`/`elif` chain, else the `.app`-stripped
basename (`os.path.basename(app_path).replace('.app', '')`). -/
def resolvedExecutable (app_path : String) : String :=
  if pyInStr "Brave" app_path then "Brave Browser"
  else if pyInStr "Chrome" app_path then "Google Chrome"
  else if pyInStr "Firefox" app_path then "firefox"
  else if pyInStr "Safari" app_path then "Safari"
  else if pyInStr "Edge" app_path then "Microsoft Edge"
  else pyReplace (pyBasename app_path) ".app" ""

/-- `WebCartAgent._resolve_app_path` (src/web_cart_agent.py lines 418-437):
join the input with `Contents/MacOS/` and the resolved executable name (the
body is pure string work, so the `except` branch returning `None` is dead). -/
def resolveAppPath (app_path : String) : String :=
  if pyInStr "Brave" app_path then pyOsPathJoin app_path "Contents/MacOS/Brave Browser"
  else if pyInStr "Chrome" app_path then pyOsPathJoin app_path "Contents/MacOS/Google Chrome"
  else if pyInStr "Firefox" app_path then pyOsPathJoin app_path "Contents/MacOS/firefox"
  else if pyInStr "Safari" app_path then pyOsPathJoin app_path "Contents/MacOS/Safari"
  else if pyInStr "Edge" app_path then pyOsPathJoin app_path "Contents/MacOS/Microsoft Edge"
  else
    let appName := pyReplace (pyBasename app_path) ".app" ""
    pyOsPathJoin app_path ("Contents/MacOS/" ++ appName)

/-! ## web_cart_agent.py: `__init__` -/

/-- The arguments `BrowserConfig` is constructed with: `headless`, and the
custom executable path when one is used. `__init__` passes nothing else. -/
structure BrowserConfigM where
  headless : Bool
  browser_instance_path : Option String
deriving Repr, DecidableEq

/-- What `WebCartAgent.__init__` stores and hands to the external library:
the state fields plus the browser configuration and the LLM model name. -/
structure WebInitResult where
  credentials : Creds
  browser_instance_path : Option String
  custom_browser_used : Bool
  browserConfig : BrowserConfigM
  task : String
  modelName : String
deriving Repr, DecidableEq

/-- `int(os.getenv(key, dflt))`: the integer default when the variable is
unset, Python `int` of its string value (with `ValueError` as the error case)
when set. -/
def pyIntEnv (env : String → Option String) (key : String) (dflt : Int) :
    Except String Int :=
  match env key with
  | none => Except.ok dflt
  | some s =>
      match pyIntOfString s with
      | some n => Except.ok n
      | none => Except.error ("invalid literal for int() with base 10: " ++ s)

/-- `WebCartAgent.__init__` (src/web_cart_agent.py lines 16-98) as a function
of the constructor arguments, the environment and the filesystem predicates.
`BROWSER_WIDTH` and `BROWSER_HEIGHT` are parsed into local variables the body
never uses again, so their only effect is the `ValueError` (the `.error`
branch) on a set but non-integer value. -/
def webInit (website : String) (items : List Item) (credentials : Option Creds)
    (headlessArg : Bool) (browserInstancePathArg : Option String)
    (env : String → Option String) (isFile isDir : String → Bool) :
    Except String WebInitResult :=
  let creds := webGetCredentials credentials env website
  let headless := pyLower ((env "BROWSER_HEADLESS").getD (pyStrBool headlessArg)) == "true"
  match pyIntEnv env "BROWSER_WIDTH" 1280 with
  | Except.error e => Except.error e
  | Except.ok _width =>
  match pyIntEnv env "BROWSER_HEIGHT" 800 with
  | Except.error e => Except.error e
  | Except.ok _height =>
  let bip :=
    match browserInstancePathArg with
    | some p => if p = "" then env "BROWSER_INSTANCE_PATH" else some p
    | none => env "BROWSER_INSTANCE_PATH"
  let defaultConfig : BrowserConfigM := ⟨headless, none⟩
  let (browserConfig, customUsed) :=
    match bip with
    | none => (defaultConfig, false)
    | some p =>
        if p = "" then (defaultConfig, false)
        else if isFile p then ((⟨false, some p⟩ : BrowserConfigM), true)
        else if pyEndsWith p ".app" && isDir p then
          let fullPath := resolveAppPath p
          if fullPath ≠ "" && isFile fullPath then ((⟨false, some fullPath⟩ : BrowserConfigM), true)
          else (defaultConfig, false)
        else (defaultConfig, false)
  let modelName := (env "OPENAI_MODEL").getD "gpt-4o"
  Except.ok
    { credentials := creds
      browser_instance_path := bip
      custom_browser_used := customUsed
      browserConfig := browserConfig
      task := createTask website items creds
      modelName := modelName }

/-! ## web_cart_agent.py: `run`, `run_from_json`, `main` -/

/-- The lines `WebCartAgent.run` prints (src/web_cart_agent.py lines 377-400)
as a function of the delegated `agent.run()` outcome: the catch-all `except`
turns an exception into two printed lines, then `cleanup` always prints its
two lines. The function is total: no outcome re-raises. -/
def webRunOutput (website : String) (nItems : Nat) (customUsed : Bool)
    (agentResult : Except String Unit) : List String :=
  ["Starting web cart agent for " ++ website,
   "Adding " ++ toString nItems ++ " item(s) to cart"]
    ++ (match agentResult with
        | Except.ok _ =>
            ["Task completed successfully. All items have been added to cart on "
               ++ website ++ "."]
              ++ (if customUsed then
                    ["Task complete. The browser window will remain open so you can continue shopping.",
                     "All browser resources and connections have been preserved for your use."]
                  else
                    ["Task complete. Your items remain in the cart on the website."])
        | Except.error e =>
            ["Error during execution: " ++ e,
             "Browser window is still available for your use."])
    ++ ["Task complete. The browser window will remain open so you can continue shopping.",
        "All resources have been preserved for continued use."]

/-- A `web_cart_agent` JSON configuration object: each `Option` field is a
top-level key that may be absent. -/
structure WebJsonConfig where
  website : Option String
  items : Option (List Item)
  credentials : Option Creds
  headless : Option Bool
  browser_instance_path : Option String
deriving Repr

/-- The constructor arguments `run_from_json` extracts. -/
structure WebAgentArgs where
  website : String
  items : List Item
  credentials : Creds
  headless : Bool
  browser_instance_path : Option String
deriving Repr

/-- The config-reading part of `run_from_json` (src/web_cart_agent.py lines
439-450): `config['website']` raises `KeyError` when absent; `items`,
`credentials`, `headless` and `browser_instance_path` use `.get` defaults. -/
def webRunFromJsonArgs (config : WebJsonConfig) : Except String WebAgentArgs :=
  match config.website with
  | none => Except.error "KeyError: website"
  | some w =>
      Except.ok
        { website := w
          items := config.items.getD []
          credentials := config.credentials.getD ⟨none, none⟩
          headless := config.headless.getD false
          browser_instance_path := config.browser_instance_path }

/-- What `main` decides to do with the command line. -/
inductive MainAction where
  | runFromJson (path : String)
  | configError (path : String)
  | interactive
deriving Repr, DecidableEq

/-- `web_cart_agent.main` dispatch (src/web_cart_agent.py lines 527-542):
with an argument after the program name, run from the file when it exists and
ends in `.json`, otherwise print the config-file error; with no argument run
interactively. -/
def webMainDispatch (argv : List String) (pathExists : String → Bool) : MainAction :=
  if argv.length > 1 then
    let configFile := argv.getD 1 ""
    if pathExists configFile && pyEndsWith configFile ".json" then
      MainAction.runFromJson configFile
    else
      MainAction.configError configFile
  else
    MainAction.interactive

/-- The quantity field of one item in `run_interactive`
(src/web_cart_agent.py lines 476-478): a blank answer leaves the key out,
otherwise `int(quantity)` is stored (or `ValueError` propagates). -/
def webInteractiveQuantityField (answer : String) : Except String (Option Int) :=
  if answer = "" then Except.ok none
  else
    match pyIntOfString answer with
    | some n => Except.ok (some n)
    | none => Except.error ("invalid literal for int() with base 10: " ++ answer)

/-! ## ecommerce_cart_agent.py -/

/-- The quantity prompt of `ecommerce_cart_agent.main` (lines 104-105):
`int(quantity) if quantity else 1` — blank input defaults to 1, other input
goes through `int` (whose `ValueError` propagates). -/
def ecomMainQuantity (answer : String) : Except String Int :=
  if answer ≠ "" then
    match pyIntOfString answer with
    | some n => Except.ok n
    | none => Except.error ("invalid literal for int() with base 10: " ++ answer)
  else Except.ok 1

/-- The lines `EcommerceCartAgent.run` prints (src/ecommerce_cart_agent.py
lines 86-98) as a function of the delegated `agent.run()` outcome: the
catch-all `except` prints the message, the `finally` block always shows the
close prompt. The function is total: no outcome re-raises. -/
def ecomRunOutput (site : String) (agentResult : Except String Unit) : List String :=
  ["Starting cart agent for " ++ site]
    ++ (match agentResult with
        | Except.ok _ => ["Task completed successfully. Items have been added to cart."]
        | Except.error e => ["Error during execution: " ++ e])
    ++ ["Press Enter to close the browser..."]

/-! ## ecommerce_cart_agent_advanced.py -/

/-- A `Product` of the advanced agent. -/
structure Product where
  url : String
  quantity : Int
  options : List (String × String)
deriving Repr, DecidableEq

/-- The per-site environment-variable stem of the advanced
`_get_credentials`: `self.ecommerce_site.upper()`. -/
def advSiteKey (site : String) : String := pyUpper site

/-- The advanced `EcommerceCartAgent._get_credentials`
(src/ecommerce_cart_agent_advanced.py lines 77-101): same logic as the web
agent's, with the whole site name as the variable stem. -/
def advGetCredentials (provided : Option Creds) (env : String → Option String)
    (site : String) : Creds :=
  let credentials := provided.getD ⟨none, none⟩
  let credentials :=
    if credsEmpty credentials then
      let siteUpper := advSiteKey site
      let credentials :=
        match env (siteUpper ++ "_USERNAME") with
        | some u => if u = "" then credentials else { credentials with username := some u }
        | none => credentials
      match env (siteUpper ++ "_PASSWORD") with
      | some p => if p = "" then credentials else { credentials with password := some p }
      | none => credentials
    else credentials
  let credentials :=
    if credentials.username = none then { credentials with username := some askUser }
    else credentials
  if credentials.password = none then { credentials with password := some askUser }
  else credentials

/-- A product object of the advanced JSON configuration; `url` is read with
`product_data['url']`, the rest with `.get` defaults. -/
structure ProductJson where
  url : Option String
  quantity : Option Int
  options : Option (List (String × String))
deriving Repr

/-- An `ecommerce_cart_agent_advanced` JSON configuration object. -/
structure AdvJsonConfig where
  ecommerce_site : Option String
  products : Option (List ProductJson)
  credentials : Option Creds
  headless : Option Bool
deriving Repr

/-- The products loop of the advanced `run_from_json` (lines 168-174): each
listed product needs a `url` key (`KeyError` otherwise); `quantity` defaults
to 1 and `options` to the empty dict. -/
def advExtractProducts : List ProductJson → Except String (List Product)
  | [] => Except.ok []
  | p :: rest =>
      match p.url with
      | none => Except.error "KeyError: url"
      | some u =>
          match advExtractProducts rest with
          | Except.error e => Except.error e
          | Except.ok tail =>
              Except.ok
                ({ url := u, quantity := p.quantity.getD 1,
                   options := p.options.getD [] } :: tail)

/-- The constructor arguments the advanced `run_from_json` extracts. -/
structure AdvAgentArgs where
  products : List Product
  ecommerce_site : String
  credentials : Creds
  headless : Bool
deriving Repr

/-- The config-reading part of the advanced `run_from_json`
(src/ecommerce_cart_agent_advanced.py lines 163-181): the products loop runs
first, then `config['ecommerce_site']` raises `KeyError` when absent; a
missing `products` key defaults to the empty list. -/
def advRunFromJsonArgs (config : AdvJsonConfig) : Except String AdvAgentArgs :=
  match advExtractProducts (config.products.getD []) with
  | Except.error e => Except.error e
  | Except.ok products =>
      match config.ecommerce_site with
      | none => Except.error "KeyError: ecommerce_site"
      | some site =>
          Except.ok
            { products := products
              ecommerce_site := site
              credentials := config.credentials.getD ⟨none, none⟩
              headless := config.headless.getD false }

/-- The advanced `main` dispatch (src/ecommerce_cart_agent_advanced.py lines
237-252), identical in logic to the web agent's. -/
def advMainDispatch (argv : List String) (pathExists : String → Bool) : MainAction :=
  if argv.length > 1 then
    let configFile := argv.getD 1 ""
    if pathExists configFile && pyEndsWith configFile ".json" then
      MainAction.runFromJson configFile
    else
      MainAction.configError configFile
  else
    MainAction.interactive

/-- The quantity prompt of the advanced `run_interactive` (lines 198-199):
`int(quantity) if quantity else 1`. -/
def advInteractiveQuantity (answer : String) : Except String Int :=
  if answer ≠ "" then
    match pyIntOfString answer with
    | some n => Except.ok n
    | none => Except.error ("invalid literal for int() with base 10: " ++ answer)
  else Except.ok 1

/-! ## web_cart_ui.py: `create_temp_config` -/

/-- One step of the options fold in `create_temp_config` (src/web_cart_ui.py
lines 50-53): a comma piece with a `:` contributes a stripped key/value pair,
one without is skipped. -/
def parseOptionStep (acc : List (String × String)) (pair : String) :
    List (String × String) :=
  if pyInStr ":" pair then
    let kv := pySplitOnceColon pair
    dictInsert acc (pyStrip kv.1) (pyStrip kv.2)
  else acc

/-- The per-line item construction of `create_temp_config`
(src/web_cart_ui.py lines 33-58): `|`-separated segments give the stripped
name, an optional description, a quantity only when `int` succeeds, and an
`options` key only when at least one `key:value` pair parsed. -/
def parseItemLine (line : String) : Item :=
  let parts := pySplit line "|"
  let item : Item := { name := some (pyStrip (parts.headD "")), description := none,
                       quantity := none, options := none }
  let item :=
    if parts.length > 1 && pyStrip (parts.getD 1 "") ≠ "" then
      { item with description := some (pyStrip (parts.getD 1 "")) }
    else item
  let item :=
    if parts.length > 2 && pyStrip (parts.getD 2 "") ≠ "" then
      match pyIntOfString (pyStrip (parts.getD 2 "")) with
      | some n => { item with quantity := some n }
      | none => item
    else item
  if parts.length > 3 && pyStrip (parts.getD 3 "") ≠ "" then
    let options := (pySplit (pyStrip (parts.getD 3 "")) ",").foldl parseOptionStep []
    if options ≠ [] then { item with options := some options } else item
  else item

/-- The items loop of `create_temp_config` (src/web_cart_ui.py lines 28-58):
split the stripped text into lines, skip the whitespace-only ones, append an
item for each of the rest. -/
def createTempConfigItems (itemsText : String) : List Item :=
  (pySplit (pyStrip itemsText) "\n").foldl
    (fun acc line => if pyStrip line = "" then acc else acc ++ [parseItemLine line]) []

/-- The configuration dictionary `create_temp_config` writes. -/
structure UiConfig where
  website : String
  items : List Item
  headless : Bool
  credentials : Option Creds
deriving Repr

/-- `create_temp_config` (src/web_cart_ui.py lines 14-75) without the file
write: credentials are kept only when provided with both entries truthy. -/
def createTempConfig (website itemsText : String) (credentials : Option Creds)
    (headless : Bool) : UiConfig :=
  { website := website
    items := createTempConfigItems itemsText
    headless := headless
    credentials :=
      match credentials with
      | some c =>
          if c.username.getD "" ≠ "" && c.password.getD "" ≠ "" then some c else none
      | none => none }

/-! ## Helper lemmas -/

/-- Two appended strings differ when the literal heads differ within their
first `k` characters. -/
theorem string_append_ne_of_take_ne (a b x y : String) (k : Nat)
    (ha : k ≤ a.length) (hb : k ≤ b.length)
    (h : a.data.take k ≠ b.data.take k) : a ++ x ≠ b ++ y := by
  intro he
  apply h
  have hd : a.data ++ x.data = b.data ++ y.data := congrArg String.data he
  calc a.data.take k = (a.data ++ x.data).take k :=
        (List.take_append_of_le_length ha).symm
    _ = (b.data ++ y.data).take k := by rw [hd]
    _ = b.data.take k := List.take_append_of_le_length hb

/-- Appending the empty string is the identity. -/
theorem string_append_empty_right (s : String) : s ++ "" = s := by
  apply String.ext
  simp

/-- A string with a fixed suffix appended never equals a target whose tail of
the suffix's length reads differently. -/
theorem string_append_right_ne (s a b : String)
    (h : a.data ≠ b.data.drop (b.length - a.length)) : s ++ a ≠ b := by
  intro he
  apply h
  have hlen : s.length + a.length = b.length := by
    have := congrArg String.length he
    simpa [String.length_append] using this
  have hdata : s.data ++ a.data = b.data := congrArg String.data he
  have hdrop : (s.data ++ a.data).drop s.data.length = a.data := by simp
  rw [hdata] at hdrop
  have hs : s.data.length = b.length - a.length := by
    have : s.length = s.data.length := rfl
    omega
  rw [hs] at hdrop
  exact hdrop.symm

/-! ## C7: `_create_task` is a pure function of website, items and credentials -/

/-- C7: task-prompt construction is deterministic: any two agent states that
agree on `website`, `items` and `credentials` yield the identical
`_create_task` string, whatever their other fields. -/
theorem c7_task_deterministic (s1 s2 : WebCartAgentState)
    (hw : s1.website = s2.website) (hi : s1.items = s2.items)
    (hc : s1.credentials = s2.credentials) : taskOfState s1 = taskOfState s2 := by
  unfold taskOfState
  rw [hw, hi, hc]

/-- Witness for C7 at two concrete states differing in `headless` and
`browserInstancePath`. -/
theorem c7_task_deterministic_witness :
    taskOfState ⟨"amazon.com", [], ⟨none, none⟩, false, none⟩
      = taskOfState ⟨"amazon.com", [], ⟨none, none⟩, true, some "/usr/bin/b"⟩ :=
  c7_task_deterministic _ _ rfl rfl rfl

/-! ## C1: site-specific instruction selection -/

/-- C1: the task prompt ends with the site-specific block selected by the
first dot-separated component of the website, lowercased: each of the seven
known site names selects exactly its static instruction text, and every other
name selects the generic fallback block. -/
theorem c1_site_instruction_selection :
    (∀ (w : String) (it : List Item) (c : Creds),
        ∃ p, createTask w it c = p ++ siteSpecificFor w)
  ∧ (∀ w, siteNameOf w = "amazon" → siteSpecificFor w = amazonInstructions)
  ∧ (∀ w, siteNameOf w = "walmart" → siteSpecificFor w = walmartInstructions)
  ∧ (∀ w, siteNameOf w = "target" → siteSpecificFor w = targetInstructions)
  ∧ (∀ w, siteNameOf w = "bestbuy" → siteSpecificFor w = bestbuyInstructions)
  ∧ (∀ w, siteNameOf w = "ebay" → siteSpecificFor w = ebayInstructions)
  ∧ (∀ w, siteNameOf w = "newegg" → siteSpecificFor w = neweggInstructions)
  ∧ (∀ w, siteNameOf w = "flipkart" → siteSpecificFor w = flipkartInstructions)
  ∧ (∀ w, siteNameOf w ∉
        ["amazon", "walmart", "target", "bestbuy", "ebay", "newegg", "flipkart"] →
        siteSpecificFor w = genericSiteInstructions) := by
  refine ⟨fun w it c => ⟨_, rfl⟩, ?_, ?_, ?_, ?_, ?_, ?_, ?_, ?_⟩
  all_goals intro w h
  case _ => unfold siteSpecificFor; rw [h]; rfl
  case _ => unfold siteSpecificFor; rw [h]; rfl
  case _ => unfold siteSpecificFor; rw [h]; rfl
  case _ => unfold siteSpecificFor; rw [h]; rfl
  case _ => unfold siteSpecificFor; rw [h]; rfl
  case _ => unfold siteSpecificFor; rw [h]; rfl
  case _ => unfold siteSpecificFor; rw [h]; rfl
  case _ =>
    simp only [List.mem_cons, List.not_mem_nil, or_false, not_or] at h
    obtain ⟨h1, h2, h3, h4, h5, h6, h7⟩ := h
    unfold siteSpecificFor siteInstructionsTable
    simp only [List.lookup,
      beq_eq_false_iff_ne.mpr h1, beq_eq_false_iff_ne.mpr h2,
      beq_eq_false_iff_ne.mpr h3, beq_eq_false_iff_ne.mpr h4,
      beq_eq_false_iff_ne.mpr h5, beq_eq_false_iff_ne.mpr h6,
      beq_eq_false_iff_ne.mpr h7]

/-! ## C3: blank quantity defaults to 1 -/

/-- C3: every blank quantity input yields quantity 1: the interactive prompts
of both console agents return 1 on the empty string, the web interactive
prompt leaves the key out on the empty string, an item without a `quantity`
key is formatted exactly as one with quantity 1, and a UI item line whose
quantity segment is blank (or absent) produces an item without the key. -/
theorem c3_blank_quantity_defaults_to_one :
    ecomMainQuantity "" = Except.ok 1
  ∧ advInteractiveQuantity "" = Except.ok 1
  ∧ webInteractiveQuantityField "" = Except.ok none
  ∧ (∀ (i : Nat) (it : Item), it.quantity = none →
        formatOneItem i it = formatOneItem i { it with quantity := some 1 })
  ∧ (∀ line, pyStrip ((pySplit line "|").getD 2 "") = "" →
        (parseItemLine line).quantity = none) := by
  refine ⟨rfl, rfl, rfl, ?_, ?_⟩
  · intro i it h
    simp [formatOneItem, h]
  · intro line h
    simp only [parseItemLine, h]
    split_ifs <;> rfl

/-! ## C5: CLI dispatch -/

/-- C5 counterexample: with a positional argument that exists but does not
end in `.json` (and likewise one that does not exist), both `main` functions
print the config-file error and load nothing, while the claim says a supplied
positional argument has the configuration loaded from it. -/
theorem c5_nonjson_argument_not_loaded :
    webMainDispatch ["web_cart_agent.py", "config.txt"] (fun _ => true)
      = MainAction.configError "config.txt"
  ∧ MainAction.configError "config.txt" ≠ MainAction.runFromJson "config.txt"
  ∧ advMainDispatch ["ecommerce_cart_agent_advanced.py", "missing.json"] (fun _ => false)
      = MainAction.configError "missing.json" := by
  refine ⟨rfl, by simp, rfl⟩

/-- C5 amended: with a positional argument, the configuration is loaded from
it exactly when the path exists and ends in `.json`; otherwise the config
error is printed; with no positional argument the interactive flow runs. -/
theorem c5_cli_dispatch_amended :
    (∀ (prog cf : String) (rest : List String) (ex : String → Bool),
        webMainDispatch (prog :: cf :: rest) ex =
          (if ex cf && pyEndsWith cf ".json" then MainAction.runFromJson cf
           else MainAction.configError cf)
      ∧ advMainDispatch (prog :: cf :: rest) ex =
          (if ex cf && pyEndsWith cf ".json" then MainAction.runFromJson cf
           else MainAction.configError cf))
  ∧ (∀ (prog : String) (ex : String → Bool),
        webMainDispatch [prog] ex = MainAction.interactive
      ∧ advMainDispatch [prog] ex = MainAction.interactive)
  ∧ (∀ ex : String → Bool,
        webMainDispatch [] ex = MainAction.interactive
      ∧ advMainDispatch [] ex = MainAction.interactive) := by
  refine ⟨?_, ?_, ?_⟩
  · intro prog cf rest ex
    constructor <;>
      simp [webMainDispatch, advMainDispatch, List.getD]
  · intro prog ex
    constructor <;> rfl
  · intro ex
    constructor <;> rfl

/-! ## C2: JSON config required keys -/

/-- C2 counterexample: a web configuration with `website` but no `items` key,
and an advanced configuration with `ecommerce_site` but no `products` key,
are both accepted by `run_from_json`, while the claim says a missing `items`
(resp. `products`) key is rejected. -/
theorem c2_missing_items_accepted :
    (webRunFromJsonArgs
        { website := some "amazon.com", items := none, credentials := none,
          headless := none, browser_instance_path := none }).isOk = true
  ∧ ({ website := some "amazon.com", items := none, credentials := none,
       headless := none, browser_instance_path := none } : WebJsonConfig).items = none
  ∧ (advRunFromJsonArgs
        { ecommerce_site := some "amazon", products := none, credentials := none,
          headless := none }).isOk = true
  ∧ ({ ecommerce_site := some "amazon", products := none, credentials := none,
       headless := none } : AdvJsonConfig).products = none := by
  refine ⟨rfl, rfl, rfl, rfl⟩

/-- The advanced products loop succeeds exactly when every listed product
object has a `url` key. -/
theorem advExtractProducts_isOk (l : List ProductJson) :
    (advExtractProducts l).isOk = true ↔ ∀ p ∈ l, p.url.isSome = true := by
  induction l with
  | nil => simp [advExtractProducts, Except.isOk, Except.toBool]
  | cons p rest ih =>
      cases hu : p.url with
      | none => simp [advExtractProducts, hu, Except.isOk, Except.toBool]
      | some u =>
          cases hr : advExtractProducts rest with
          | error e =>
              rw [hr] at ih
              simp only [Except.isOk, Except.toBool] at ih
              simp [advExtractProducts, hu, hr, Except.isOk, Except.toBool, ← ih]
          | ok tail =>
              rw [hr] at ih
              simp only [Except.isOk, Except.toBool] at ih
              simp [advExtractProducts, hu, hr, Except.isOk, Except.toBool, ← ih]

/-- C2 amended: parsing accepts every well-formed configuration object; the
only required top-level key is `website` (`ecommerce_site` for the advanced
variant), a missing `items`/`products` key defaulting to the empty list —
though each product listed in the advanced variant must itself carry `url`. -/
theorem c2_required_keys_amended :
    (∀ cfg : WebJsonConfig,
        (webRunFromJsonArgs cfg).isOk = true ↔ cfg.website.isSome = true)
  ∧ (∀ cfg : AdvJsonConfig,
        (advRunFromJsonArgs cfg).isOk = true ↔
          ((∀ p ∈ cfg.products.getD [], p.url.isSome = true)
            ∧ cfg.ecommerce_site.isSome = true)) := by
  constructor
  · intro cfg
    cases hw : cfg.website <;>
      simp [webRunFromJsonArgs, hw, Except.isOk, Except.toBool]
  · intro cfg
    cases hp : advExtractProducts (cfg.products.getD []) with
    | error e =>
        have := advExtractProducts_isOk (cfg.products.getD [])
        rw [hp] at this
        simp only [Except.isOk, Except.toBool] at this
        simp [advRunFromJsonArgs, hp, Except.isOk, Except.toBool, ← this]
    | ok products =>
        have := advExtractProducts_isOk (cfg.products.getD [])
        rw [hp] at this
        simp only [Except.isOk, Except.toBool] at this
        cases hs : cfg.ecommerce_site <;>
          simp [advRunFromJsonArgs, hp, hs, Except.isOk, Except.toBool, ← this]

/-! ## C4: the run methods catch everything and print -/

/-- Strings differing within their first `k` characters differ. -/
theorem string_ne_of_data_take_ne (s t : String) (k : Nat)
    (h : s.data.take k ≠ t.data.take k) : s ≠ t :=
  fun he => h (he ▸ rfl)

/-- Taking at most the head part of an appended string reads the head. -/
theorem take_data_append (a x : String) (k : Nat) (h : k ≤ a.length) :
    (a ++ x).data.take k = a.data.take k := by
  show (a.data ++ x.data).take k = a.data.take k
  exact List.take_append_of_le_length h

/-- Taking at most the head part of a doubly appended string reads the head. -/
theorem take_data_append2 (a x y : String) (k : Nat) (h : k ≤ a.length) :
    ((a ++ x) ++ y).data.take k = a.data.take k := by
  rw [take_data_append (a ++ x) y k (by rw [String.length_append]; omega),
      take_data_append a x k h]

/-- C4: both `run` methods are total in the delegated outcome. On an
exception they print exactly the message prefixed `Error during execution: `
and continue (no re-raise: the output list is defined for every outcome); on
a normal return they print a success message, and the success line never
appears among the exception-path lines. -/
theorem c4_run_catch_all :
    (∀ (w : String) (n : Nat) (cb : Bool) (e : String),
        webRunOutput w n cb (Except.error e) =
          ["Starting web cart agent for " ++ w,
           "Adding " ++ toString n ++ " item(s) to cart",
           "Error during execution: " ++ e,
           "Browser window is still available for your use.",
           "Task complete. The browser window will remain open so you can continue shopping.",
           "All resources have been preserved for continued use."])
  ∧ (∀ (w : String) (n : Nat) (cb : Bool) (e : String),
        ("Error during execution: " ++ e) ∈ webRunOutput w n cb (Except.error e))
  ∧ (∀ (w : String) (n : Nat) (cb : Bool),
        ("Task completed successfully. All items have been added to cart on " ++ w ++ ".")
          ∈ webRunOutput w n cb (Except.ok ()))
  ∧ (∀ (w : String) (n : Nat) (cb : Bool) (e : String),
        ("Task completed successfully. All items have been added to cart on " ++ w ++ ".")
          ∉ webRunOutput w n cb (Except.error e))
  ∧ (∀ (s e : String),
        ecomRunOutput s (Except.error e) =
          ["Starting cart agent for " ++ s,
           "Error during execution: " ++ e,
           "Press Enter to close the browser..."])
  ∧ (∀ (s e : String),
        ("Error during execution: " ++ e) ∈ ecomRunOutput s (Except.error e))
  ∧ (∀ s : String,
        "Task completed successfully. Items have been added to cart."
          ∈ ecomRunOutput s (Except.ok ()))
  ∧ (∀ (s e : String),
        "Task completed successfully. Items have been added to cart."
          ∉ ecomRunOutput s (Except.error e)) := by
  refine ⟨fun w n cb e => rfl, ?_, ?_, ?_, fun s e => rfl, ?_, ?_, ?_⟩
  · intro w n cb e
    simp [webRunOutput]
  · intro w n cb
    cases cb <;> simp [webRunOutput]
  · intro w n cb e
    simp only [webRunOutput, List.cons_append, List.nil_append, List.mem_cons,
      List.not_mem_nil, or_false, not_or]
    refine ⟨?_, ?_, ?_, ?_, ?_, ?_⟩
    · apply string_ne_of_data_take_ne _ _ 1
      rw [take_data_append2 _ _ _ 1 (by decide), take_data_append _ _ 1 (by decide)]
      decide
    · apply string_ne_of_data_take_ne _ _ 1
      rw [take_data_append2 _ _ _ 1 (by decide), take_data_append2 _ _ _ 1 (by decide)]
      decide
    · apply string_ne_of_data_take_ne _ _ 1
      rw [take_data_append2 _ _ _ 1 (by decide), take_data_append _ _ 1 (by decide)]
      decide
    · apply string_ne_of_data_take_ne _ _ 1
      rw [take_data_append2 _ _ _ 1 (by decide)]
      decide
    · apply string_ne_of_data_take_ne _ _ 14
      rw [take_data_append2 _ _ _ 14 (by decide)]
      decide
    · apply string_ne_of_data_take_ne _ _ 1
      rw [take_data_append2 _ _ _ 1 (by decide)]
      decide
  · intro s e
    simp [ecomRunOutput]
  · intro s
    simp [ecomRunOutput]
  · intro s e
    simp only [ecomRunOutput, List.cons_append, List.nil_append, List.mem_cons,
      List.not_mem_nil, or_false, not_or]
    refine ⟨?_, ?_, ?_⟩
    · apply string_ne_of_data_take_ne _ _ 1
      rw [take_data_append _ _ 1 (by decide)]
      decide
    · apply string_ne_of_data_take_ne _ _ 1
      rw [take_data_append _ _ 1 (by decide)]
      decide
    · decide

/-! ## C10: UI item-line parsing -/

/-- The items loop is the per-line parser mapped over the non-blank lines. -/
theorem foldl_items_eq (ls : List String) (acc : List Item) :
    ls.foldl (fun acc line => if pyStrip line = "" then acc else acc ++ [parseItemLine line]) acc
      = acc ++ (ls.filter (fun l => pyStrip l ≠ "")).map parseItemLine := by
  induction ls generalizing acc with
  | nil => simp
  | cons l rest ih =>
      by_cases h : pyStrip l = "" <;> simp [h, ih]

/-- An options fold over pieces that all lack a colon never adds a pair. -/
theorem foldl_parseOptionStep_nil (ps : List String) (acc : List (String × String))
    (h : ∀ p ∈ ps, pyInStr ":" p = false) : ps.foldl parseOptionStep acc = acc := by
  induction ps generalizing acc with
  | nil => rfl
  | cons p rest ih =>
      have hp : pyInStr ":" p = false := h p (List.mem_cons_self p rest)
      rw [List.foldl_cons]
      rw [show parseOptionStep acc p = acc from by simp [parseOptionStep, hp]]
      exact ih acc (fun q hq => h q (List.mem_cons_of_mem p hq))

/-- C10: `create_temp_config` produces one item per non-whitespace line and
skips whitespace-only lines; every item carries a `name` key holding the
stripped first `|`-segment; a quantity segment that `int` rejects is silently
ignored, leaving no `quantity` key; a comma piece without `:` is ignored; and
the `options` key appears only when at least one `key:value` pair parsed. -/
theorem c10_ui_item_parsing :
    (∀ t, createTempConfigItems t
        = ((pySplit (pyStrip t) "\n").filter (fun l => pyStrip l ≠ "")).map parseItemLine)
  ∧ (∀ line, (parseItemLine line).name = some (pyStrip ((pySplit line "|").headD "")))
  ∧ (∀ line, pyIntOfString (pyStrip ((pySplit line "|").getD 2 "")) = none →
        (parseItemLine line).quantity = none)
  ∧ (∀ line o, (parseItemLine line).options = some o → o ≠ [])
  ∧ (∀ acc pair, pyInStr ":" pair = false → parseOptionStep acc pair = acc)
  ∧ (∀ line,
        (∀ pair ∈ pySplit (pyStrip ((pySplit line "|").getD 3 "")) ",",
            pyInStr ":" pair = false) →
        (parseItemLine line).options = none) := by
  refine ⟨?_, ?_, ?_, ?_, ?_, ?_⟩
  · intro t
    unfold createTempConfigItems
    rw [foldl_items_eq]
    simp
  · intro line
    simp only [parseItemLine]
    repeat' split
    all_goals rfl
  · intro line h
    simp only [parseItemLine]
    repeat' split
    all_goals simp_all
  · intro line o h
    simp only [parseItemLine] at h
    repeat' split at h
    all_goals simp_all
  · intro acc pair h
    simp [parseOptionStep, h]
  · intro line hall
    simp only [parseItemLine]
    rw [foldl_parseOptionStep_nil _ _ hall]
    simp only [ne_eq, not_true_eq_false, if_false, ite_false]
    repeat' split
    all_goals simp_all

/-! ## C8: `_resolve_app_path` -/

/-- Modelled from the claim's words, for comparison with `resolveAppPath`:
the basename with the `.app` SUFFIX removed (where the code removes every
occurrence of the substring `.app`). -/
def specSuffixStrippedExecutable (p : String) : String :=
  let b := pyBasename p
  if pyEndsWith b ".app" then ⟨b.data.take (b.data.length - 4)⟩ else b

/-- C8 counterexample: on `/Applications/my.application.app` (which names no
known browser) the code's `.replace('.app', '')` deletes the interior `.app`
of `my.application` as well, producing `mylication`, not the
suffix-stripped `my.application` the claim describes. -/
theorem c8_suffix_removal_refuted :
    resolveAppPath "/Applications/my.application.app"
      = "/Applications/my.application.app/Contents/MacOS/mylication"
  ∧ specSuffixStrippedExecutable "/Applications/my.application.app" = "my.application"
  ∧ resolveAppPath "/Applications/my.application.app"
      ≠ pyOsPathJoin "/Applications/my.application.app"
          ("Contents/MacOS/"
            ++ specSuffixStrippedExecutable "/Applications/my.application.app") := by
  refine ⟨rfl, rfl, by decide⟩

/-- No character of a basename is a slash. -/
theorem pyBasename_no_slash (p : String) : ∀ c ∈ (pyBasename p).data, c ≠ '/' := by
  intro c hc
  simp only [pyBasename, List.mem_reverse] at hc
  have := List.mem_takeWhile_imp hc
  simpa using this

/-- Characters of a replacement by the empty string come from the input. -/
theorem pyReplaceCore_mem (old : List Char) (fuel : Nat) (l : List Char) (c : Char)
    (h : c ∈ pyReplaceCore old [] fuel l) : c ∈ l := by
  induction fuel generalizing l with
  | zero =>
      cases l with
      | nil => simp [pyReplaceCore] at h
      | cons a rest => simpa [pyReplaceCore] using h
  | succ fuel ih =>
      cases l with
      | nil => simp [pyReplaceCore] at h
      | cons a rest =>
          simp only [pyReplaceCore] at h
          split at h
          · have := ih _ h
            exact List.mem_cons_of_mem a (List.mem_of_mem_drop this)
          · rcases List.mem_cons.mp h with h | h
            · exact h ▸ List.mem_cons_self a rest
            · exact List.mem_cons_of_mem a (ih _ h)

/-- C8 amended: `_resolve_app_path` always returns the input joined with
`Contents/MacOS/` and an executable name containing no slash (so the result
stays inside the input directory); the name is the hard-coded one of the
first matching browser in the order Brave, Chrome, Firefox, Safari, Edge,
and otherwise the basename with every occurrence of the substring `.app`
removed (not only a suffix). -/
theorem c8_resolve_app_path_amended (p : String) :
    resolveAppPath p = pyOsPathJoin p ("Contents/MacOS/" ++ resolvedExecutable p)
  ∧ (∀ c ∈ (resolvedExecutable p).data, c ≠ '/')
  ∧ (pyInStr "Brave" p = true → resolvedExecutable p = "Brave Browser")
  ∧ (pyInStr "Brave" p = false → pyInStr "Chrome" p = true →
        resolvedExecutable p = "Google Chrome")
  ∧ (pyInStr "Brave" p = false → pyInStr "Chrome" p = false →
        pyInStr "Firefox" p = true → resolvedExecutable p = "firefox")
  ∧ (pyInStr "Brave" p = false → pyInStr "Chrome" p = false →
        pyInStr "Firefox" p = false → pyInStr "Safari" p = true →
        resolvedExecutable p = "Safari")
  ∧ (pyInStr "Brave" p = false → pyInStr "Chrome" p = false →
        pyInStr "Firefox" p = false → pyInStr "Safari" p = false →
        pyInStr "Edge" p = true → resolvedExecutable p = "Microsoft Edge")
  ∧ (pyInStr "Brave" p = false → pyInStr "Chrome" p = false →
        pyInStr "Firefox" p = false → pyInStr "Safari" p = false →
        pyInStr "Edge" p = false →
        resolvedExecutable p = pyReplace (pyBasename p) ".app" "") := by
  refine ⟨?_, ?_, ?_, ?_, ?_, ?_, ?_, ?_⟩
  · unfold resolveAppPath resolvedExecutable
    split_ifs <;> rfl
  · unfold resolvedExecutable
    split_ifs
    · decide
    · decide
    · decide
    · decide
    · decide
    · intro c hc
      have hb : (pyBasename p).data ≠ [] ∨ True := Or.inr trivial
      have : c ∈ (pyBasename p).data := by
        revert hc
        unfold pyReplace
        cases hd : (".app" : String).data with
        | nil => exact nomatch hd
        | cons a rest =>
            intro hc
            exact pyReplaceCore_mem _ _ _ _ hc
      exact pyBasename_no_slash p c this
  · intro h1; simp [resolvedExecutable, h1]
  · intro h1 h2; simp [resolvedExecutable, h1, h2]
  · intro h1 h2 h3; simp [resolvedExecutable, h1, h2, h3]
  · intro h1 h2 h3 h4; simp [resolvedExecutable, h1, h2, h3, h4]
  · intro h1 h2 h3 h4 h5; simp [resolvedExecutable, h1, h2, h3, h4, h5]
  · intro h1 h2 h3 h4 h5; simp [resolvedExecutable, h1, h2, h3, h4, h5]

/-! ## C9: `_get_credentials` -/

/-- The shared logic of the two `_get_credentials` copies, parameterized by
the per-site variable stem (`webSiteKey` resp. `advSiteKey`). -/
def genericGetCredentials (key : String → String) (provided : Option Creds)
    (env : String → Option String) (site : String) : Creds :=
  let credentials := provided.getD ⟨none, none⟩
  let credentials :=
    if credsEmpty credentials then
      let siteUpper := key site
      let credentials :=
        match env (siteUpper ++ "_USERNAME") with
        | some u => if u = "" then credentials else { credentials with username := some u }
        | none => credentials
      match env (siteUpper ++ "_PASSWORD") with
      | some p => if p = "" then credentials else { credentials with password := some p }
      | none => credentials
    else credentials
  let credentials :=
    if credentials.username = none then { credentials with username := some askUser }
    else credentials
  if credentials.password = none then { credentials with password := some askUser }
  else credentials

/-- The web agent's `_get_credentials` is the shared logic at its key. -/
theorem webGetCredentials_eq_generic :
    webGetCredentials = genericGetCredentials webSiteKey := rfl

/-- The advanced agent's `_get_credentials` is the shared logic at its key. -/
theorem advGetCredentials_eq_generic :
    advGetCredentials = genericGetCredentials advSiteKey := rfl

/-- What C9 states of a `_get_credentials` function with variable stem `key`:
the result always carries both entries; a non-empty provided dict is passed
through without consulting the environment, its present entries unchanged and
its missing ones set to the placeholder; `None` behaves as the empty dict;
for the empty dict the per-site environment variables fill the entries
(a set, non-empty variable is taken verbatim; an unset one leaves the
placeholder). -/
def getCredentialsSpec (F : Option Creds → (String → Option String) → String → Creds)
    (key : String → String) : Prop :=
    (∀ prov env site,
        (F prov env site).username.isSome = true ∧ (F prov env site).password.isSome = true)
  ∧ (∀ c env1 env2 site, credsEmpty c = false → F (some c) env1 site = F (some c) env2 site)
  ∧ (∀ c env site u, c.username = some u → (F (some c) env site).username = some u)
  ∧ (∀ c env site p, c.password = some p → (F (some c) env site).password = some p)
  ∧ (∀ c env site, credsEmpty c = false → c.username = none →
        (F (some c) env site).username = some askUser)
  ∧ (∀ c env site, credsEmpty c = false → c.password = none →
        (F (some c) env site).password = some askUser)
  ∧ (∀ env site, F none env site = F (some ⟨none, none⟩) env site)
  ∧ (∀ env site u, env (key site ++ "_USERNAME") = some u → u ≠ "" →
        (F none env site).username = some u)
  ∧ (∀ env site, env (key site ++ "_USERNAME") = none →
        (F none env site).username = some askUser)
  ∧ (∀ env site p, env (key site ++ "_PASSWORD") = some p → p ≠ "" →
        (F none env site).password = some p)
  ∧ (∀ env site, env (key site ++ "_PASSWORD") = none →
        (F none env site).password = some askUser)

/-- The shared logic satisfies the C9 specification for any key function. -/
theorem genericGetCredentials_spec (key : String → String) :
    getCredentialsSpec (genericGetCredentials key) key := by
  refine ⟨?_, ?_, ?_, ?_, ?_, ?_, ?_, ?_, ?_, ?_, ?_⟩
  · intro prov env site
    rcases prov with _ | ⟨u, p⟩
    · cases hu : env (key site ++ "_USERNAME") <;>
        cases hp : env (key site ++ "_PASSWORD") <;>
          simp [genericGetCredentials, credsEmpty, hu, hp] <;>
            split_ifs <;> simp_all
    · rcases u with _ | u <;> rcases p with _ | p <;>
        cases hu : env (key site ++ "_USERNAME") <;>
          cases hp : env (key site ++ "_PASSWORD") <;>
            simp [genericGetCredentials, credsEmpty, hu, hp] <;>
              split_ifs <;> simp_all
  · intro c env1 env2 site h
    simp only [genericGetCredentials, Option.getD_some, h, Bool.false_eq_true, if_false]
  · intro c env site u hu
    have h : credsEmpty c = false := by simp [credsEmpty, hu]
    rcases c with ⟨cu, cp⟩
    simp only [Creds.username] at hu
    subst hu
    rcases cp with _ | p <;> simp [genericGetCredentials, credsEmpty]
  · intro c env site p hp
    have h : credsEmpty c = false := by simp [credsEmpty, hp]
    rcases c with ⟨cu, cp⟩
    simp only [Creds.password] at hp
    subst hp
    rcases cu with _ | u <;> simp [genericGetCredentials, credsEmpty]
  · intro c env site h hu
    rcases c with ⟨cu, cp⟩
    simp only [Creds.username] at hu
    subst hu
    simp only [credsEmpty, Option.isNone_none, Bool.true_and] at h
    rcases cp with _ | p
    · simp at h
    · simp [genericGetCredentials, credsEmpty]
  · intro c env site h hp
    rcases c with ⟨cu, cp⟩
    simp only [Creds.password] at hp
    subst hp
    simp only [credsEmpty, Option.isNone_none, Bool.and_true] at h
    rcases cu with _ | u
    · simp at h
    · simp [genericGetCredentials, credsEmpty]
  · intro env site
    rfl
  · intro env site u hu hne
    cases hp : env (key site ++ "_PASSWORD") <;>
      simp [genericGetCredentials, credsEmpty, hu, hp, hne] <;> split_ifs <;> simp_all
  · intro env site hu
    cases hp : env (key site ++ "_PASSWORD") <;>
      simp [genericGetCredentials, credsEmpty, hu, hp] <;> split_ifs <;> simp_all
  · intro env site p hp hne
    cases hu : env (key site ++ "_USERNAME") <;>
      simp [genericGetCredentials, credsEmpty, hu, hp, hne] <;> split_ifs <;> simp_all
  · intro env site hp
    cases hu : env (key site ++ "_USERNAME") <;>
      simp [genericGetCredentials, credsEmpty, hu, hp] <;> split_ifs <;> simp_all

/-- C9: both `_get_credentials` implementations return a dict with both keys;
a non-empty provided dict passes through unchanged without consulting the
environment; `None` behaves as the empty dict; on the empty dict the per-site
environment variables fill the entries; anything still missing becomes the
`<<ASK_USER>>` placeholder. -/
theorem c9_get_credentials_spec :
    getCredentialsSpec webGetCredentials webSiteKey
  ∧ getCredentialsSpec advGetCredentials advSiteKey := by
  constructor
  · rw [webGetCredentials_eq_generic]
    exact genericGetCredentials_spec webSiteKey
  · rw [advGetCredentials_eq_generic]
    exact genericGetCredentials_spec advSiteKey

/-! ## C6: environment-variable defaults -/

/-- An environment with one variable overridden. -/
def setEnvVar (k v : String) (env : String → Option String) : String → Option String :=
  fun q => if q = k then some v else env q

/-- A per-site username variable name is never `BROWSER_WIDTH`. -/
theorem username_key_ne_width (s : String) : s ++ "_USERNAME" ≠ "BROWSER_WIDTH" :=
  string_append_right_ne _ _ _ (by decide)

/-- A per-site password variable name is never `BROWSER_WIDTH`. -/
theorem password_key_ne_width (s : String) : s ++ "_PASSWORD" ≠ "BROWSER_WIDTH" :=
  string_append_right_ne _ _ _ (by decide)

/-- A per-site username variable name is never `BROWSER_HEIGHT`. -/
theorem username_key_ne_height (s : String) : s ++ "_USERNAME" ≠ "BROWSER_HEIGHT" :=
  string_append_right_ne _ _ _ (by decide)

/-- A per-site password variable name is never `BROWSER_HEIGHT`. -/
theorem password_key_ne_height (s : String) : s ++ "_PASSWORD" ≠ "BROWSER_HEIGHT" :=
  string_append_right_ne _ _ _ (by decide)

/-- `_get_credentials` reads the environment only at its two per-site keys. -/
theorem webGetCredentials_env_agree (prov : Option Creds) (w : String)
    (env1 env2 : String → Option String)
    (h1 : env1 (webSiteKey w ++ "_USERNAME") = env2 (webSiteKey w ++ "_USERNAME"))
    (h2 : env1 (webSiteKey w ++ "_PASSWORD") = env2 (webSiteKey w ++ "_PASSWORD")) :
    webGetCredentials prov env1 w = webGetCredentials prov env2 w := by
  simp only [webGetCredentials]
  rw [h1, h2]

/-- C6 counterexample: two constructions differing only in the value of
`BROWSER_WIDTH` (640 versus 1920) produce the same result in every observable
part — credentials, browser configuration, task and model name — because the
parsed width is never used, so `BROWSER_WIDTH` does not set any geometry of
the constructed configuration. -/
theorem c6_browser_width_has_no_effect :
    webInit "amazon.com" [] none false none
        (setEnvVar "BROWSER_WIDTH" "640" (fun _ => none)) (fun _ => false) (fun _ => false)
      = webInit "amazon.com" [] none false none
          (setEnvVar "BROWSER_WIDTH" "1920" (fun _ => none)) (fun _ => false) (fun _ => false)
  ∧ setEnvVar "BROWSER_WIDTH" "640" (fun _ => none) "BROWSER_WIDTH"
      ≠ setEnvVar "BROWSER_WIDTH" "1920" (fun _ => none) "BROWSER_WIDTH" := by
  refine ⟨rfl, by decide⟩

/-- C6 amended: in the constructed configuration, `OPENAI_MODEL` sets the
model name (default `gpt-4o`), `BROWSER_HEADLESS` sets the headless flag
(when no custom browser path is in play), and the per-site
`<SITE>_USERNAME`/`<SITE>_PASSWORD` pair fills the credentials when none are
provided; `BROWSER_WIDTH` and `BROWSER_HEIGHT` are read and must parse as
integers when set, but their values have no effect on the result. -/
theorem c6_env_defaults_amended :
    (∀ w it cr hArg bip env fI fD r,
        webInit w it cr hArg bip env fI fD = Except.ok r →
        r.modelName = (env "OPENAI_MODEL").getD "gpt-4o")
  ∧ (∀ w it cr hArg bip env fI fD r,
        webInit w it cr hArg bip env fI fD = Except.ok r →
        r.credentials = webGetCredentials cr env w)
  ∧ (∀ w it cr hArg env fI fD r,
        env "BROWSER_INSTANCE_PATH" = none →
        webInit w it cr hArg none env fI fD = Except.ok r →
        r.browserConfig.headless
          = (pyLower ((env "BROWSER_HEADLESS").getD (pyStrBool hArg)) == "true"))
  ∧ (∀ w it cr hArg bip env fI fD (v1 v2 : String) (n1 n2 : Int),
        pyIntOfString v1 = some n1 → pyIntOfString v2 = some n2 →
        webInit w it cr hArg bip (setEnvVar "BROWSER_WIDTH" v1 env) fI fD
          = webInit w it cr hArg bip (setEnvVar "BROWSER_WIDTH" v2 env) fI fD)
  ∧ (∀ w it cr hArg bip env fI fD (v1 v2 : String) (n1 n2 : Int),
        pyIntOfString v1 = some n1 → pyIntOfString v2 = some n2 →
        webInit w it cr hArg bip (setEnvVar "BROWSER_HEIGHT" v1 env) fI fD
          = webInit w it cr hArg bip (setEnvVar "BROWSER_HEIGHT" v2 env) fI fD)
  ∧ (∀ env w u p, env (webSiteKey w ++ "_USERNAME") = some u → u ≠ "" →
        env (webSiteKey w ++ "_PASSWORD") = some p → p ≠ "" →
        webGetCredentials none env w = ⟨some u, some p⟩) := by
  refine ⟨?_, ?_, ?_, ?_, ?_, ?_⟩
  · intro w it cr hArg bip env fI fD r h
    unfold webInit at h
    cases hw : pyIntEnv env "BROWSER_WIDTH" 1280 with
    | error e => rw [hw] at h; simp at h
    | ok wv =>
        cases hh : pyIntEnv env "BROWSER_HEIGHT" 800 with
        | error e => rw [hw, hh] at h; simp at h
        | ok hv =>
            rw [hw, hh] at h
            simp only [Except.ok.injEq] at h
            subst h
            rfl
  · intro w it cr hArg bip env fI fD r h
    unfold webInit at h
    cases hw : pyIntEnv env "BROWSER_WIDTH" 1280 with
    | error e => rw [hw] at h; simp at h
    | ok wv =>
        cases hh : pyIntEnv env "BROWSER_HEIGHT" 800 with
        | error e => rw [hw, hh] at h; simp at h
        | ok hv =>
            rw [hw, hh] at h
            simp only [Except.ok.injEq] at h
            subst h
            rfl
  · intro w it cr hArg env fI fD r hbip h
    unfold webInit at h
    cases hw : pyIntEnv env "BROWSER_WIDTH" 1280 with
    | error e => rw [hw] at h; simp at h
    | ok wv =>
        cases hh : pyIntEnv env "BROWSER_HEIGHT" 800 with
        | error e => rw [hw, hh] at h; simp at h
        | ok hv =>
            rw [hw, hh] at h
            simp only [hbip, Except.ok.injEq] at h
            subst h
            rfl
  · intro w it cr hArg bip env fI fD v1 v2 n1 n2 hv1 hv2
    have hcred : ∀ v,
        webGetCredentials cr (setEnvVar "BROWSER_WIDTH" v env) w
          = webGetCredentials cr env w := by
      intro v
      apply webGetCredentials_env_agree
      · simp [setEnvVar, username_key_ne_width (webSiteKey w)]
      · simp [setEnvVar, password_key_ne_width (webSiteKey w)]
    unfold webInit
    rw [hcred v1, hcred v2]
    simp [setEnvVar, pyIntEnv, hv1, hv2]
  · intro w it cr hArg bip env fI fD v1 v2 n1 n2 hv1 hv2
    have hcred : ∀ v,
        webGetCredentials cr (setEnvVar "BROWSER_HEIGHT" v env) w
          = webGetCredentials cr env w := by
      intro v
      apply webGetCredentials_env_agree
      · simp [setEnvVar, username_key_ne_height (webSiteKey w)]
      · simp [setEnvVar, password_key_ne_height (webSiteKey w)]
    unfold webInit
    rw [hcred v1, hcred v2]
    simp [setEnvVar, pyIntEnv, hv1, hv2]
  · intro env w u p hu hneu hp hnep
    simp [webGetCredentials, credsEmpty, hu, hp, hneu, hnep]

end CartAgent
